import Mathlib

/-!
Verification development for the wedding-website scraping pipeline
(`backend/api/routes/scrape.py`, `backend/services/scraper/scraper.py`,
`backend/services/scraper/data_mapper.py`, `backend/models/scrape_job.py`).

Python strings are modelled as Lean `String` (a list of unicode scalar
characters, matching Python's code-point view), Python string slices and
searches as structurally recursive functions over `String.data`.  Network,
DNS and the headless browser are modelled as explicit environments passed
to the embedded functions.
-/

/-! ## Python string primitives -/

/-- Character length of a string, as Python `len`. -/
def pyLen (s : String) : Nat := s.data.length

/-- Python slice `s[:n]`: the first `n` characters. -/
def pyTake (s : String) (n : Nat) : String := ⟨s.data.take n⟩

/-- Python `str.lower()` (character-wise, ASCII-adequate). -/
def lowerStr (s : String) : String := ⟨s.data.map Char.toLower⟩

/-- Python `str.upper()`. -/
def upperStr (s : String) : String := ⟨s.data.map Char.toUpper⟩

/-- Does `pat` occur at the head of `text`? -/
def startsHere : List Char → List Char → Bool
  | [], _ => true
  | _ :: _, [] => false
  | p :: ps, c :: cs => p == c && startsHere ps cs

/-- Does `pat` occur anywhere in `text`?  Models Python `pat in text`. -/
def occursInCh (pat : List Char) : List Char → Bool
  | [] => startsHere pat []
  | c :: cs => startsHere pat (c :: cs) || occursInCh pat cs

/-- Python `pat in s` for strings. -/
def occursIn (pat s : String) : Bool := occursInCh pat.data s.data

/-- Python `s.startswith(pat)`. -/
def startsWithStr (s pat : String) : Bool := startsHere pat.data s.data

/-- Python `s.endswith(pat)`. -/
def endsWithStr (s pat : String) : Bool := startsHere pat.data.reverse s.data.reverse

/-- Split on one separator character (Python `str.split(sep)` with a 1-char separator). -/
def splitCharAux (sep : Char) : List Char → List Char → List String
  | [], cur => [⟨cur.reverse⟩]
  | c :: cs, cur =>
    if c == sep then ⟨cur.reverse⟩ :: splitCharAux sep cs []
    else splitCharAux sep cs (c :: cur)

/-- Split a string on a separator character. -/
def splitChar (sep : Char) (s : String) : List String := splitCharAux sep s.data []

/-- Python `str.strip()` (whitespace at both ends). -/
def stripStr (s : String) : String :=
  ⟨((s.data.dropWhile Char.isWhitespace).reverse.dropWhile Char.isWhitespace).reverse⟩

/-- Python `str.rstrip("/")`. -/
def rstripSlash (s : String) : String := ⟨(s.data.reverse.dropWhile (· == '/')).reverse⟩

/-- Join strings with a separator, Python `sep.join(parts)`. -/
def joinWith (sep : String) : List String → String
  | [] => ""
  | [x] => x
  | x :: y :: rest => x ++ sep ++ joinWith sep (y :: rest)

/-- Concatenate a list of strings, Python `"".join(parts)`. -/
def concatAll : List String → String
  | [] => ""
  | x :: rest => x ++ concatAll rest

/-- Replace every occurrence of `pat` by `repl` (fuelled; Python `str.replace`). -/
def replaceChFuel (pat repl : List Char) : Nat → List Char → List Char
  | 0, cs => cs
  | _ + 1, [] => []
  | n + 1, c :: cs =>
    if startsHere pat (c :: cs) && !pat.isEmpty then
      repl ++ replaceChFuel pat repl n ((c :: cs).drop pat.length)
    else
      c :: replaceChFuel pat repl n cs

/-- Python `s.replace(pat, repl)` for non-empty `pat`. -/
def replaceStr (s pat repl : String) : String :=
  ⟨replaceChFuel pat.data repl.data s.data.length s.data⟩

/-- ASCII decimal-digit test, Python regex `\d`. -/
def isDigitCh (c : Char) : Bool := c.isDigit

/-- Decimal value of a digit string. -/
def digitsToNatAux : List Char → Nat → Nat
  | [], acc => acc
  | c :: cs, acc => digitsToNatAux cs (acc * 10 + (c.toNat - '0'.toNat))

/-- Decimal value of a digit string (most significant first). -/
def digitsToNat (cs : List Char) : Nat := digitsToNatAux cs 0

/-- Split `text` at the first occurrence of `pat`, returning the parts
before and after it, or `none` when `pat` does not occur. -/
def splitFirstCh (pat : List Char) : List Char → Option (List Char × List Char)
  | [] => none
  | c :: cs =>
    if startsHere pat (c :: cs) then some ([], (c :: cs).drop pat.length)
    else
      match splitFirstCh pat cs with
      | some (before, after) => some (c :: before, after)
      | none => none

/-- Take characters until the predicate holds. -/
def takeUntil (p : Char → Bool) : List Char → List Char
  | [] => []
  | c :: cs => if p c then [] else c :: takeUntil p cs

/-! ## IPv4 model (CPython `ipaddress` semantics for dotted quads) -/

/-- An IPv4 address `a.b.c.d` as its 32-bit numeric value. -/
def ipQuad (a b c d : Nat) : Nat := ((a * 256 + b) * 256 + c) * 256 + d

/-- Membership of `ip` in the network `a.b.c.d/m`. -/
def inNet (ip a b c d m : Nat) : Bool :=
  ipQuad a b c d ≤ ip && ip < ipQuad a b c d + 2 ^ (32 - m)

/-- `IPv4Address.is_loopback`: 127.0.0.0/8. -/
def ipIsLoopback (ip : Nat) : Bool := inNet ip 127 0 0 0 8

/-- `IPv4Address.is_link_local`: 169.254.0.0/16. -/
def ipIsLinkLocal (ip : Nat) : Bool := inNet ip 169 254 0 0 16

/-- `IPv4Address.is_multicast`: 224.0.0.0/4. -/
def ipIsMulticast (ip : Nat) : Bool := inNet ip 224 0 0 0 4

/-- `IPv4Address.is_reserved`: 240.0.0.0/4. -/
def ipIsReserved (ip : Nat) : Bool := inNet ip 240 0 0 0 4

/-- `IPv4Address.is_private`: CPython's private-network list for IPv4. -/
def ipIsPrivate (ip : Nat) : Bool :=
  inNet ip 0 0 0 0 8 || inNet ip 10 0 0 0 8 || inNet ip 127 0 0 0 8 ||
  inNet ip 169 254 0 0 16 || inNet ip 172 16 0 0 12 || inNet ip 192 0 0 0 29 ||
  inNet ip 192 0 0 170 31 || inNet ip 192 0 2 0 24 || inNet ip 192 168 0 0 16 ||
  inNet ip 198 18 0 0 15 || inNet ip 198 51 100 0 24 || inNet ip 203 0 113 0 24 ||
  inNet ip 240 0 0 0 4 || inNet ip 255 255 255 255 32

/-- Parse one dotted-quad octet as CPython `ipaddress` does:
all digits, no leading zero, at most 255. -/
def parseOctet (cs : List Char) : Option Nat :=
  if cs.isEmpty then none
  else if !(cs.all isDigitCh) then none
  else if cs.length > 1 && cs.headD ' ' == '0' then none
  else if digitsToNat cs ≤ 255 then some (digitsToNat cs) else none

/-- Parse an IPv4 dotted-quad literal; `none` models the `ValueError` raised by
`ipaddress.ip_address` on non-IP hostnames (IPv6 literals are outside this model). -/
def parseIPv4 (s : String) : Option Nat :=
  match (splitChar '.' s).map (fun p => parseOctet p.data) with
  | [some a, some b, some c, some d] => some (ipQuad a b c d)
  | _ => none

/-! ## URL parsing (model of `urllib.parse.urlparse` for the URL shapes used here) -/

/-- The pieces of a parsed URL that `validate_url_for_ssrf` and the scraper read.
`hostname` is lower-cased and port-stripped, `none` when absent or empty,
mirroring the falsiness test `if not hostname` in the source. -/
structure ParsedUrl where
  scheme : String
  netloc : String
  hostname : Option String
  path : String
deriving DecidableEq

/-- Model of `urllib.parse.urlparse` for absolute `scheme://netloc/path` URLs
(userinfo, params and fragments beyond `?`/`#` cutting are not modelled). -/
def urlParse (url : String) : ParsedUrl :=
  match splitFirstCh "://".data url.data with
  | none => { scheme := "", netloc := "", hostname := none, path := url }
  | some (schemeCs, rest) =>
    let netlocCs := takeUntil (fun c => c == '/' || c == '?' || c == '#') rest
    let afterNetloc := rest.drop netlocCs.length
    let pathCs := takeUntil (fun c => c == '?' || c == '#') afterNetloc
    let hostCs := takeUntil (fun c => c == ':') netlocCs
    { scheme := lowerStr ⟨schemeCs⟩
      netloc := ⟨netlocCs⟩
      hostname := if hostCs.isEmpty then none else some (lowerStr ⟨hostCs⟩)
      path := ⟨pathCs⟩ }

/-! ## URL safety validator (`api/routes/scrape.py`) -/

/-- DNS environment: `getaddrinfo` results as IP strings, `none` models `socket.gaierror`. -/
def DnsEnv : Type := String → Option (List String)

/-- `ALLOWED_DOMAINS` from `api/routes/scrape.py`. -/
def allowedDomains : List String :=
  ["theknot.com", "zola.com", "withjoy.com", "weddingwire.com", "minted.com",
   "wedding.com", "joykitchen.com", "theblacktiebride.com", "squarespace.com",
   "weddingwebsite.com", "wix.com", "weebly.com"]

/-- The `blocked_hostnames` denylist inside `validate_url_for_ssrf`. -/
def blockedHostnames : List String :=
  ["localhost", "127.0.0.1", "0.0.0.0", "::1",
   "metadata.google.internal", "169.254.169.254", "metadata"]

/-- `is_private_ip` from `api/routes/scrape.py`: parse the string as an IP and
check private/loopback/link-local/reserved/multicast; `ValueError` yields `False`. -/
def is_private_ip (s : String) : Bool :=
  match parseIPv4 s with
  | some ip =>
    ipIsPrivate ip || ipIsLoopback ip || ipIsLinkLocal ip ||
    ipIsReserved ip || ipIsMulticast ip
  | none => false

/-- The advisory allow-list tail of `validate_url_for_ssrf`: the allow-list is
computed but non-matching domains are still permitted (logged only). -/
def validateAllowTail (hostname : String) : Bool × String :=
  let domain := lowerStr hostname
  let _is_allowed := allowedDomains.any (fun a => domain == a || endsWithStr domain ("." ++ a))
  (true, "")

/-- `validate_url_for_ssrf` from `api/routes/scrape.py`, over a parsed URL and
a DNS environment.  Returns `(is_valid, error_message)`. -/
def validate_url_for_ssrf (dns : DnsEnv) (pu : ParsedUrl) : Bool × String :=
  if pu.scheme != "http" && pu.scheme != "https" then
    (false, "Only HTTP and HTTPS URLs are allowed")
  else
    match pu.hostname with
    | none => (false, "Invalid URL: no hostname")
    | some hostname =>
      if blockedHostnames.contains (lowerStr hostname) then
        (false, "Access to internal resources is not allowed")
      else
        match parseIPv4 hostname with
        | some _ =>
          if is_private_ip hostname then
            (false, "Access to private IP addresses is not allowed")
          else
            validateAllowTail hostname
        | none =>
          match dns hostname with
          | none => (false, "Could not resolve hostname: " ++ hostname)
          | some ips =>
            if ips.any is_private_ip then
              (false, "Access to private IP addresses is not allowed")
            else
              validateAllowTail hostname

/-- The SSRF gate of the scrape endpoints (`scrape_wedding_website`,
`start_scrape_job`): a `WeddingScraper` is constructed (a fetch attempted)
only when validation succeeds; on failure an HTTP 400 is raised first. -/
def scrape_endpoint_attempts_fetch (dns : DnsEnv) (url : String) : Bool :=
  (validate_url_for_ssrf dns (urlParse url)).1

/-! ## Tiered page fetcher (`services/scraper/scraper.py`) -/

/-- Outcome of one `httpx` GET: a response with status code and body text, or
a transport-level `httpx.HTTPError`. -/
inductive HttpxResult
  | response (status : Nat) (text : String)
  | transportError
deriving DecidableEq

/-- The network environment a `WeddingScraper` session runs against:
`net url` is the httpx response for `url`; `browser url` is the HTML the
stealth browser returns (`none` covers navigation failure and Playwright
being unavailable). -/
structure FetchEnv where
  net : String → HttpxResult
  browser : String → Option String

/-- Mutable session state of `WeddingScraper`: the
`_use_browser_for_session` flag set in `__init__` to `False`. -/
structure ScrapeSession where
  use_browser_for_session : Bool
deriving DecidableEq

/-- Which fetch tier an attempt used. -/
inductive Tier
  | lightweight
  | browser
deriving DecidableEq

/-- `BROWSER_REQUIRED_PLATFORMS` from `WeddingScraper` (every entry is `True`). -/
def browserRequiredDomains : List String :=
  ["theknot.com", "weddingwire.com", "weddingwire.us"]

/-- `WeddingScraper._should_use_browser`: the lower-cased, `www.`-stripped
netloc contains a browser-required platform domain. -/
def should_use_browser (url : String) : Bool :=
  let domain := replaceStr (lowerStr (urlParse url).netloc) "www." ""
  browserRequiredDomains.any (fun d => occursIn d domain)

/-- The `blocked_indicators` list of `_is_blocked_response`. -/
def blockedIndicators : List String :=
  ["Access Denied", "Please enable JavaScript", "Checking your browser",
   "Just a moment...", "Enable JavaScript and cookies", "Reference&#32;&#35;"]

/-- `WeddingScraper._is_blocked_response`: implausibly short (fewer than 500
characters, which subsumes the falsy empty string) or containing one of the
known challenge-page markers. -/
def is_blocked_response (html : String) : Bool :=
  if pyLen html < 500 then true
  else blockedIndicators.any (fun ind => occursIn ind html)

/-- `WeddingScraper._fetch_with_httpx`: 2xx bodies are returned; a 403 with a
non-empty body is returned (for blocked-response inspection); every other
status error and every transport error yields `none`, never an exception. -/
def fetch_with_httpx (env : FetchEnv) (url : String) : Option String :=
  match env.net url with
  | .response status text =>
    if 200 ≤ status && status ≤ 299 then some text
    else if status == 403 && text != "" then some text
    else none
  | .transportError => none

/-- `WeddingScraper._fetch_page`: tiered fetch with fallback.  Returns the
HTML result, the updated session state, and the trace of tiers attempted in
order.  The source's `if html and not self._is_blocked_response(html)` is
modelled by the blocked test alone, since the empty string is classified as
blocked. -/
def fetch_page (env : FetchEnv) (s : ScrapeSession) (url : String) :
    Option String × ScrapeSession × List Tier :=
  if s.use_browser_for_session || should_use_browser url then
    match env.browser url with
    | some html =>
      if !is_blocked_response html then (some html, ⟨true⟩, [.browser])
      else (none, s, [.browser])
    | none => (none, s, [.browser])
  else
    match fetch_with_httpx env url with
    | some html =>
      if !is_blocked_response html then (some html, s, [.lightweight])
      else
        match env.browser url with
        | some html2 =>
          if !is_blocked_response html2 then (some html2, ⟨true⟩, [.lightweight, .browser])
          else (none, s, [.lightweight, .browser])
        | none => (none, s, [.lightweight, .browser])
    | none =>
      match env.browser url with
      | some html2 =>
        if !is_blocked_response html2 then (some html2, ⟨true⟩, [.lightweight, .browser])
        else (none, s, [.lightweight, .browser])
      | none => (none, s, [.lightweight, .browser])

/-! ## Navigation discovery (`WeddingScraper._find_nav_subpages`) -/

/-- An anchor element scanned (in document order) from the nav/header
elements of the root page: its `href` attribute and stripped visible text. -/
structure Anchor where
  href : String
  text : String
deriving DecidableEq

/-- A discovered navigation link (`{'url', 'name', 'display_name'}`). -/
structure NavLink where
  url : String
  name : String
  display_name : String
deriving DecidableEq

/-- Model of `urllib.parse.urljoin` for the relative-path case used in
`_find_nav_subpages` (`href` neither root-relative nor absolute): the base up
to and including its last `/`, followed by `href`.  Dot segments and other
RFC 3986 cases are not modelled; the discovery invariants do not depend on
the joined shape. -/
def urljoinRel (base href : String) : String :=
  ⟨(base.data.reverse.dropWhile (fun c => !(c == '/'))).reverse ++ href.data⟩

/-- The absolute-URL construction of `_find_nav_subpages`. -/
def navFullUrl (base : ParsedUrl) (baseUrl href : String) : String :=
  if startsWithStr href "/" then base.scheme ++ "://" ++ base.netloc ++ href
  else if !(startsWithStr href "http") then urljoinRel baseUrl href
  else href

/-- The anchor-scanning loop of `_find_nav_subpages`, threading the
`seen_urls` set and emitting nav links in discovery order. -/
def navScan (base : ParsedUrl) (baseUrl basePath : String) :
    List Anchor → List String → List NavLink
  | [], _ => []
  | a :: rest, seen =>
    if a.text == "" || a.text.data.length > 50 then
      navScan base baseUrl basePath rest seen
    else if startsWithStr a.href "#" || startsWithStr a.href "javascript:" ||
        startsWithStr a.href "mailto:" then
      navScan base baseUrl basePath rest seen
    else if (urlParse (navFullUrl base baseUrl a.href)).netloc != base.netloc then
      navScan base baseUrl basePath rest seen
    else if rstripSlash (urlParse (navFullUrl base baseUrl a.href)).path == basePath
        || rstripSlash (urlParse (navFullUrl base baseUrl a.href)).path == "" then
      navScan base baseUrl basePath rest seen
    else if navFullUrl base baseUrl a.href ∈ seen then
      navScan base baseUrl basePath rest seen
    else if startsWithStr (rstripSlash (urlParse (navFullUrl base baseUrl a.href)).path) basePath
        || occursIn basePath (rstripSlash (urlParse (navFullUrl base baseUrl a.href)).path) then
      { url := navFullUrl base baseUrl a.href
        name := lowerStr (stripStr a.text)
        display_name := stripStr a.text }
        :: navScan base baseUrl basePath rest (navFullUrl base baseUrl a.href :: seen)
    else
      navScan base baseUrl basePath rest seen

/-- The final URL-dedup pass of `_find_nav_subpages`
(`unique_links` / `final_urls`), keeping first occurrences. -/
def navDedup : List NavLink → List String → List NavLink
  | [], _ => []
  | l :: rest, finalUrls =>
    if l.url ∈ finalUrls then navDedup rest finalUrls
    else l :: navDedup rest (l.url :: finalUrls)

/-- `WeddingScraper._find_nav_subpages`: scan anchors, dedup by URL, and cap
at 10 sub-pages. -/
def find_nav_subpages (anchors : List Anchor) (baseUrl : String) : List NavLink :=
  let parsedBase := urlParse baseUrl
  let basePath := rstripSlash parsedBase.path
  (navDedup (navScan parsedBase baseUrl basePath anchors []) []).take 10

/-! ## Content extraction and cleaning (`_clean_page_text`, `_extract_main_content`) -/

/-- Python regex `\w` (ASCII view). -/
def isWordCh (c : Char) : Bool := c.isAlphanum || c == '_'

/-- Consume exactly `n` digits, returning the remainder. -/
def takeDigitsN : Nat → List Char → Option (List Char)
  | 0, cs => some cs
  | _ + 1, [] => none
  | n + 1, c :: cs => if isDigitCh c then takeDigitsN n cs else none

/-- Match of the phone regex `\(\d{3}\)\s*\d{3}[-.]?\d{4}` at the head. -/
def phoneAt (cs : List Char) : Bool :=
  match cs with
  | '(' :: r =>
    (match takeDigitsN 3 r with
     | some (')' :: r2) =>
       let r3 := r2.dropWhile Char.isWhitespace
       (match takeDigitsN 3 r3 with
        | some r4 =>
          let r5 := match r4 with
            | '-' :: t => t
            | '.' :: t => t
            | t => t
          (takeDigitsN 4 r5).isSome
        | _ => false)
     | _ => false)
  | _ => false

/-- Python `re.search` of the phone pattern: a match at some position. -/
def hasPhone (s : String) : Bool := go s.data where
  go : List Char → Bool
    | [] => false
    | c :: cs => phoneAt (c :: cs) || go cs

/-- Street-address suffixes of the address regex alternation. -/
def addrSuffixes : List String :=
  ["st", "street", "ave", "avenue", "blvd", "boulevard", "rd", "road",
   "dr", "drive", "ln", "lane"]

/-- Match of `\d+\s+\w+\s+(st|street|...)` at the head (maximal-munch is
faithful here because each greedy class is disjoint from its follower). -/
def addrAt (cs : List Char) : Bool :=
  let ds := cs.takeWhile isDigitCh
  if ds.isEmpty then false else
  let r1 := cs.drop ds.length
  let sp1 := r1.takeWhile Char.isWhitespace
  if sp1.isEmpty then false else
  let r2 := r1.drop sp1.length
  let ws := r2.takeWhile isWordCh
  if ws.isEmpty then false else
  let r3 := r2.drop ws.length
  let sp2 := r3.takeWhile Char.isWhitespace
  if sp2.isEmpty then false else
  let r4 := r3.drop sp2.length
  addrSuffixes.any (fun a => startsHere a.data r4)

/-- Python `re.search` of the street-address pattern. -/
def hasAddr (s : String) : Bool := go s.data where
  go : List Char → Bool
    | [] => false
    | c :: cs => addrAt (c :: cs) || go cs

/-- The `registry_indicators` noise list of `_clean_page_text`. -/
def registryIndicators : List String :=
  ["needs 1 of", "shop registry", "gift providers", "our wish list", "filter/sort",
   "price low to high", "price high to low", "cash fund", "honeymoon fund",
   "gift any amount", "purchased", "add to cart", "target™", "threshold™",
   "brightroom™", "amazon.com"]

/-- Python `re.match(r'^[a-z_]+$', line)` combined with `len(line) < 30`:
icon-name lines. -/
def isIconLine (l : String) : Bool :=
  !l.data.isEmpty && l.data.all (fun c => ('a' ≤ c && c ≤ 'z') || c == '_')
    && l.data.length < 30

/-- Python `re.match(r'^[\d\s]+$', line)`: digits-and-whitespace lines. -/
def isNumericLine (l : String) : Bool :=
  !l.data.isEmpty && l.data.all (fun c => isDigitCh c || Char.isWhitespace c)

/-- Python `re.match(r'^\$[\d,]+\.?\d*$', line)`: bare price lines. -/
def isPriceLine (l : String) : Bool :=
  match l.data with
  | '$' :: r =>
    let ds := r.takeWhile (fun c => isDigitCh c || c == ',')
    if ds.isEmpty then false else
    (match r.drop ds.length with
     | [] => true
     | '.' :: r2 => r2.all isDigitCh
     | _ => false)
  | _ => false

/-- The keep test of `_clean_page_text` applied to one stripped line. -/
def cleanKeep (line : String) : Bool :=
  let lower := lowerStr line
  !(line.data.length < 3
    || isIconLine line
    || (occursIn "cookie" lower && line.data.length > 100)
    || (occursIn "privacy" lower && occursIn "choices" lower)
    || isNumericLine line
    || registryIndicators.any (fun ind => occursIn ind lower)
    || isPriceLine line)

/-- `WeddingScraper._clean_page_text`: split into lines, strip each, drop
noise lines, rejoin. -/
def clean_page_text (text : String) : String :=
  joinWith "\n" (((splitChar '\n' text).map stripStr).filter cleanKeep)

/-- One candidate element (`main`/`article`/`section`/`div`) of the page copy
as the travel branch of `_extract_main_content` reads it, after the source
has decomposed registry/sidebar/footer/cookie/consent/modal/popup elements:
its text in the two renderings requested, and its class/id attributes. -/
structure PageSection where
  stripText : String
  sepText : String
  cls : String
  idAttr : String
deriving DecidableEq

/-- The document view `_extract_main_content` consumes (post element
removal): candidate sections in document order, Q&A texts from
`details`/`summary`/`dt`/`dd` elements, texts from the FAQ-class selectors,
the `main` element's text when present, and the whole-page text fallback. -/
structure PageDoc where
  sections : List PageSection
  qaTexts : List String
  faqSelTexts : List String
  mainText : Option String
  wholeText : String
deriving DecidableEq

/-- The `travel_keywords` list of `_extract_main_content`. -/
def travelKeywords : List String :=
  ["travel", "hotel", "accommod", "stay", "lodging", "where to stay",
   "room block", "book your room", "reserv", "check-in", "check-out",
   "courtyard", "marriott", "hilton", "hyatt", "inn", "suites"]

/-- The per-section hotel score of the travel branch. -/
def sectionScore (s : PageSection) : Nat :=
  let tl := lowerStr s.stripText
  let kwScore := (travelKeywords.filter (fun kw => occursIn kw (pyTake tl 2000))).length
  let phone := if hasPhone s.stripText then 5 else 0
  let addr := if hasAddr tl then 5 else 0
  let cio := if occursIn "check-in" tl && occursIn "check-out" tl then 10 else 0
  let ci := if ["travel", "hotel", "accommod"].any
      (fun kw => occursIn kw (lowerStr s.cls) || occursIn kw (lowerStr s.idAttr)) then 3 else 0
  kwScore + phone + addr + cio + ci

/-- The hotel-section collection loop: skip registry-looking and badly sized
sections, keep scored sections, dedup by 100-character text fingerprint. -/
def collectHotelSections : List PageSection → List String → List (Nat × String)
  | [], _ => []
  | s :: rest, seen =>
    if ["needs 1 of", "add to cart", "shop registry", "our wish list"].any
        (fun x => occursIn x (lowerStr s.stripText)) then
      collectHotelSections rest seen
    else if s.stripText.data.length < 100 || s.stripText.data.length > 10000 then
      collectHotelSections rest seen
    else if 8 ≤ sectionScore s && 100 < s.stripText.data.length then
      if pyTake s.stripText 100 ∈ seen then collectHotelSections rest seen
      else (sectionScore s, s.sepText) :: collectHotelSections rest (pyTake s.stripText 100 :: seen)
    else collectHotelSections rest seen

/-- Stable descending insertion by score (Python's stable
`sort(key=..., reverse=True)`). -/
def insertDesc (x : Nat × String) : List (Nat × String) → List (Nat × String)
  | [] => [x]
  | y :: rest => if y.1 < x.1 then x :: y :: rest else y :: insertDesc x rest

/-- Sort hotel sections by score descending, stably. -/
def sortHotelSectionsDesc (l : List (Nat × String)) : List (Nat × String) :=
  l.foldl (fun acc x => insertDesc x acc) []

/-- Travel-page test of `_extract_main_content`. -/
def isTravelPageName (name : String) : Bool :=
  ["travel", "accommodations", "hotels"].any (fun kw => occursIn kw (lowerStr name))

/-- Q&A-page test of `_extract_main_content`. -/
def isQaPageName (name : String) : Bool :=
  ["q-a", "qa", "faq"].any (fun kw => occursIn kw (lowerStr name))

/-- The Q&A collection: definition-list texts first, then selector-matched
texts that are non-empty and not already collected. -/
def collectQa (qaTexts faqSelTexts : List String) : List String :=
  faqSelTexts.foldl (fun acc t => if t != "" && t ∉ acc then acc ++ [t] else acc) qaTexts

/-- `WeddingScraper._extract_main_content`: travel pages concatenate all
above-threshold hotel sections (cap 8000); Q&A pages collect FAQ elements
(cap 5000); every other path caps at 5000. -/
def extract_main_content (doc : PageDoc) (page_name : String) : String :=
  if isTravelPageName page_name
      && !(collectHotelSections doc.sections []).isEmpty then
    pyTake (clean_page_text (joinWith "\n\n"
      ((sortHotelSectionsDesc (collectHotelSections doc.sections [])).map (·.2)))) 8000
  else if isQaPageName page_name && !(collectQa doc.qaTexts doc.faqSelTexts).isEmpty then
    pyTake (clean_page_text (joinWith "\n" (collectQa doc.qaTexts doc.faqSelTexts))) 5000
  else
    match doc.mainText with
    | some t => pyTake (clean_page_text t) 5000
    | none => pyTake (clean_page_text doc.wholeText) 5000

/-! ## Full-text assembly of the platform assemblers -/

/-- The redirect note appended for pages noted as available but not scraped
(name, url pairs). -/
def pagesAvailableNote (pagesAvailable : List (String × String)) : String :=
  "\n\n=== PAGES TO REDIRECT GUESTS TO ===\n"
    ++ "The following pages are available on the couple's wedding website. "
    ++ "Direct guests to visit these URLs to view this content:\n"
    ++ concatAll (pagesAvailable.map (fun pg => "- " ++ pg.1 ++ ": " ++ pg.2 ++ "\n"))

/-- The `full_text` assembly of `_scrape_the_knot` (used by
`_scrape_weddingwire` as well): cleaned main text capped at 6000 characters,
priority sub-pages (travel/accommodations/hotels/q-a/faq) first, then the
other sub-pages, then the redirect note, the whole capped at 30000. -/
def theKnotFullText (mainRaw : String) (subpages : List (String × String))
    (pagesAvailable : List (String × String)) : String :=
  let mainText := pyTake (clean_page_text mainRaw) 6000
  let priorityPages := ["travel", "accommodations", "hotels", "q-a", "faq"]
  let otherPages := (subpages.map (·.1)).filter (fun k => k ∉ priorityPages)
  let mk := fun (p content : String) =>
    "\n\n=== " ++ upperStr p ++ " PAGE ===\n" ++ clean_page_text content
  let priorityTexts := priorityPages.filterMap (fun p =>
    (List.lookup p subpages).map (mk p))
  let otherTexts := otherPages.filterMap (fun p =>
    (List.lookup p subpages).map (mk p))
  let combined := mainText ++ concatAll (priorityTexts ++ otherTexts)
  let withNote := if !pagesAvailable.isEmpty then combined ++ pagesAvailableNote pagesAvailable
    else combined
  pyTake withNote 30000

/-- The identical `full_text` assembly of `_scrape_zola`, `_scrape_joy` and
`_scrape_generic`: raw main text capped at 8000, each sub-page appended under
its header, the redirect note, the whole capped at 20000. -/
def genericStyleFullText (mainRaw : String) (subpages : List (String × String))
    (pagesAvailable : List (String × String)) : String :=
  let mainText := pyTake mainRaw 8000
  let subpageTexts := subpages.map (fun pg =>
    "\n\n=== " ++ upperStr pg.1 ++ " PAGE ===\n" ++ pg.2)
  let combined := mainText ++ concatAll subpageTexts
  let withNote := if !pagesAvailable.isEmpty then combined ++ pagesAvailableNote pagesAvailable
    else combined
  pyTake withNote 20000

/-! ## Structured data mapper (`services/scraper/data_mapper.py`) -/

/-- Take a greedy run of one or two digits (regex `\d{1,2}`), returning the
value and the remainder.  Maximal munch is faithful in the mapper's patterns
because a shorter alternative always leaves a digit where a non-digit is
required next. -/
def takeDigits12 (cs : List Char) : Option (Nat × List Char) :=
  match cs with
  | [] => none
  | [c1] => if isDigitCh c1 then some (digitsToNat [c1], []) else none
  | c1 :: c2 :: rest =>
    if isDigitCh c1 && isDigitCh c2 then some (digitsToNat [c1, c2], rest)
    else if isDigitCh c1 then some (digitsToNat [c1], c2 :: rest)
    else none

/-- Match `(\d{1,2})/(\d{1,2})/(\d{4})` at the head. -/
def slashDateAt (cs : List Char) : Option (Nat × Nat × Nat) := do
  let (m, r1) ← takeDigits12 cs
  let r2 ← match r1 with | '/' :: t => some t | _ => none
  let (d, r3) ← takeDigits12 r2
  let r4 ← match r3 with | '/' :: t => some t | _ => none
  let y4 := r4.take 4
  if y4.length == 4 && y4.all isDigitCh then some (m, d, digitsToNat y4) else none

/-- Python `re.search` of the `MM/DD/YYYY` pattern: leftmost match. -/
def searchSlashDate : List Char → Option (Nat × Nat × Nat)
  | [] => none
  | c :: cs =>
    match slashDateAt (c :: cs) with
    | some r => some r
    | none => searchSlashDate cs

/-- Match `(\w+)\s+(\d{1,2}),?\s+(\d{4})` ("Month DD, YYYY") at the head. -/
def monthNameDateAt (cs : List Char) : Option (String × Nat × Nat) :=
  let ws := cs.takeWhile isWordCh
  if ws.isEmpty then none else
  let r1 := cs.drop ws.length
  let sp1 := r1.takeWhile Char.isWhitespace
  if sp1.isEmpty then none else
  match takeDigits12 (r1.drop sp1.length) with
  | none => none
  | some (d, r3) =>
    let r4 := match r3 with | ',' :: t => t | t => t
    let sp2 := r4.takeWhile Char.isWhitespace
    if sp2.isEmpty then none else
    let y4 := (r4.drop sp2.length).take 4
    if y4.length == 4 && y4.all isDigitCh then some (⟨ws⟩, d, digitsToNat y4) else none

/-- Python `re.search` of the `Month DD, YYYY` pattern. -/
def searchMonthNameDate : List Char → Option (String × Nat × Nat)
  | [] => none
  | c :: cs =>
    match monthNameDateAt (c :: cs) with
    | some r => some r
    | none => searchMonthNameDate cs

/-- Match `(\d{1,2})\s+(\w+)\s+(\d{4})` ("DD Month YYYY") at the head. -/
def dayMonthYearAt (cs : List Char) : Option (Nat × String × Nat) :=
  match takeDigits12 cs with
  | none => none
  | some (d, r1) =>
    let sp1 := r1.takeWhile Char.isWhitespace
    if sp1.isEmpty then none else
    let r2 := r1.drop sp1.length
    let ws := r2.takeWhile isWordCh
    if ws.isEmpty then none else
    let r3 := r2.drop ws.length
    let sp2 := r3.takeWhile Char.isWhitespace
    if sp2.isEmpty then none else
    let y4 := (r3.drop sp2.length).take 4
    if y4.length == 4 && y4.all isDigitCh then some (d, ⟨ws⟩, digitsToNat y4) else none

/-- Python `re.search` of the `DD Month YYYY` pattern. -/
def searchDayMonthYear : List Char → Option (Nat × String × Nat)
  | [] => none
  | c :: cs =>
    match dayMonthYearAt (c :: cs) with
    | some r => some r
    | none => searchDayMonthYear cs

/-- The month table of `WeddingDataMapper._month_to_number`. -/
def monthTable : List (String × Nat) :=
  [("january", 1), ("february", 2), ("march", 3), ("april", 4),
   ("may", 5), ("june", 6), ("july", 7), ("august", 8),
   ("september", 9), ("october", 10), ("november", 11), ("december", 12),
   ("jan", 1), ("feb", 2), ("mar", 3), ("apr", 4), ("jun", 6),
   ("jul", 7), ("aug", 8), ("sep", 9), ("oct", 10), ("nov", 11), ("dec", 12)]

/-- `WeddingDataMapper._month_to_number`. -/
def month_to_number (name : String) : Option Nat :=
  List.lookup (lowerStr (stripStr name)) monthTable

/-- Python format `{:02d}` for the month/day values produced here. -/
def pad2 (n : Nat) : String := if n < 10 then "0" ++ toString n else toString n

/-- The f-string `f"{year}-{month:02d}-{day:02d}"` of `_parse_date`. -/
def fmtDate (y m d : Nat) : String := toString y ++ "-" ++ pad2 m ++ "-" ++ pad2 d

/-- The third-pattern tail of `_parse_date`. -/
def parseDatePattern3 (text : String) : Option String :=
  match searchDayMonthYear text.data with
  | some (d, mn, y) =>
    match month_to_number mn with
    | some m => some (fmtDate y m d)
    | none => none
  | none => none

/-- `WeddingDataMapper._parse_date`: try `MM/DD/YYYY`, then `Month DD, YYYY`
(falling through on an unknown month name), then `DD Month YYYY`.  The
numeric fields are formatted without any range validation. -/
def parse_date (text : String) : Option String :=
  if text == "" then none
  else
    match searchSlashDate text.data with
    | some (m, d, y) => some (fmtDate y m d)
    | none =>
      match searchMonthNameDate text.data with
      | some (mn, d, y) =>
        match month_to_number mn with
        | some m => some (fmtDate y m d)
        | none => parseDatePattern3 text
      | none => parseDatePattern3 text

/-- Case-insensitive head match. -/
def ciStartsHere : List Char → List Char → Bool
  | [], _ => true
  | _ :: _, [] => false
  | p :: ps, c :: cs => p.toLower == c.toLower && ciStartsHere ps cs

/-- Truncate at the first case-insensitive occurrence of `pat`: models
`re.sub(pat + ".*$", "", text, flags=IGNORECASE)` for a literal `pat`. -/
def truncAtCI (pat : List Char) : List Char → List Char
  | [] => []
  | c :: cs => if ciStartsHere pat (c :: cs) then [] else c :: truncAtCI pat cs

/-- Truncate at the first occurrence of `pat` (case-sensitive `re.sub`). -/
def truncAt (pat : List Char) : List Char → List Char
  | [] => []
  | c :: cs => if startsHere pat (c :: cs) then [] else c :: truncAt pat cs

/-- Split at every case-insensitive occurrence of `pat`, fuelled (models
`re.split(re.escape(sep), text, flags=IGNORECASE)`). -/
def splitCIFuel (pat : List Char) : Nat → List Char → List Char → List String
  | 0, cs, cur => [⟨cur.reverse ++ cs⟩]
  | _ + 1, [], cur => [⟨cur.reverse⟩]
  | n + 1, c :: cs, cur =>
    if ciStartsHere pat (c :: cs) then
      ⟨cur.reverse⟩ :: splitCIFuel pat n ((c :: cs).drop pat.length) []
    else splitCIFuel pat n cs (c :: cur)

/-- Case-insensitive split of `text` on `sep`. -/
def splitCI (sep text : String) : List String :=
  splitCIFuel sep.data text.data.length text.data []

/-- The separator list of `_parse_couple_names`. -/
def coupleSeparators : List String := [" & ", " and ", " AND ", " + "]

/-- `WeddingDataMapper._parse_couple_names`: strip, drop "...'s Wedding",
"... Wedding" and " - ..." suffixes, then split on the first separator that
occurs case-insensitively; fall back to the whole text as partner 1. -/
def parse_couple_names (text : String) : String × String :=
  let t0 := stripStr text
  let t1 : String := ⟨truncAtCI "'s Wedding".data t0.data⟩
  let t2 : String := ⟨truncAtCI " Wedding".data t1.data⟩
  let t3 : String := ⟨truncAt " - ".data t2.data⟩
  match coupleSeparators.find? (fun sep => occursIn (lowerStr sep) (lowerStr t3)) with
  | some sep =>
    match splitCI sep t3 with
    | p1 :: p2 :: _ => (stripStr p1, stripStr p2)
    | _ => (t3, "")
  | none => (t3, "")

/-- Event records in the mapper's target schema (the extraction prompt's
field names). -/
structure EventRec where
  event_name : Option String
  event_date : Option String
  event_time : Option String
  venue_name : Option String
  venue_address : Option String
  description : Option String
  dress_code : Option String
deriving DecidableEq

/-- Accommodation records in the mapper's target schema. -/
structure AccommodationRec where
  hotel_name : Option String
  address : Option String
  phone : Option String
  booking_url : Option String
  has_room_block : Option Bool
  room_block_name : Option String
  room_block_code : Option String
  room_block_rate : Option String
  room_block_deadline : Option String
  notes : Option String
deriving DecidableEq

/-- FAQ records in the mapper's target schema. -/
structure FaqRec where
  question : Option String
  answer : Option String
  category : Option String
deriving DecidableEq

/-- The structured wedding record built by `_extract_direct_fields` and
returned by `_merge_data` (its result dictionary's keys). -/
structure WeddingRecord where
  partner1_name : String
  partner2_name : String
  wedding_date : Option String
  wedding_time : Option String
  dress_code : Option String
  ceremony_venue_name : Option String
  ceremony_venue_address : Option String
  reception_venue_name : Option String
  reception_venue_address : Option String
  reception_time : Option String
  registry_urls : Option (List (String × String))
  rsvp_url : Option String
  additional_notes : Option String
  events : List EventRec
  accommodations : List AccommodationRec
  faqs : List FaqRec
deriving DecidableEq

/-- One entry of `raw_data["registry_links"]`, with both keys optional as the
source's `link.get` calls assume. -/
structure RegistryLink where
  text : Option String
  url : Option String
deriving DecidableEq

/-- The raw-bundle fields `_extract_direct_fields` reads. -/
structure RawBundle where
  couple_names : Option String
  main_heading : Option String
  page_title : Option String
  wedding_date_text : Option String
  possible_date : Option String
  rsvp_url : Option String
  registry_links : List RegistryLink
deriving DecidableEq

/-- Python truthy chaining `a or b or c or ""` over optional strings. -/
def firstTruthy : List (Option String) → String
  | [] => ""
  | o :: rest =>
    match o with
    | some s => if s != "" then s else firstTruthy rest
    | none => firstTruthy rest

/-- The registry-URL dictionary comprehension of `_extract_direct_fields`,
as an association list in insertion order: entries with a truthy `url`,
keyed by `text` or the positional default `Registry {i+1}`. -/
def registryUrls (links : List RegistryLink) : List (String × String) :=
  links.enum.filterMap (fun e =>
    match e.2.url with
    | some u =>
      if u != "" then some (e.2.text.getD ("Registry " ++ toString (e.1 + 1)), u)
      else none
    | none => none)

/-- `WeddingDataMapper._extract_direct_fields`. -/
def extract_direct_fields (raw : RawBundle) : WeddingRecord :=
  let couple := firstTruthy [raw.couple_names, raw.main_heading, raw.page_title]
  let names := if couple != "" then parse_couple_names couple else ("", "")
  let dateText := firstTruthy [raw.wedding_date_text, raw.possible_date]
  { partner1_name := names.1
    partner2_name := names.2
    wedding_date := if dateText != "" then parse_date dateText else none
    wedding_time := none
    dress_code := none
    ceremony_venue_name := none
    ceremony_venue_address := none
    reception_venue_name := none
    reception_venue_address := none
    reception_time := none
    registry_urls :=
      if raw.registry_links.isEmpty then none else some (registryUrls raw.registry_links)
    rsvp_url :=
      match raw.rsvp_url with
      | some u => if u != "" then some u else none
      | none => none
    additional_notes := none
    events := []
    accommodations := []
    faqs := [] }

/-- The fields of the LLM extraction's JSON response that `_merge_data`
iterates over; `none` models both an absent key and an explicit null. -/
structure LlmOut where
  partner1_name : Option String
  partner2_name : Option String
  wedding_date : Option String
  wedding_time : Option String
  dress_code : Option String
  ceremony_venue_name : Option String
  ceremony_venue_address : Option String
  reception_venue_name : Option String
  reception_venue_address : Option String
  reception_time : Option String
  additional_notes : Option String
  events : Option (List EventRec)
  accommodations : Option (List AccommodationRec)
  faqs : Option (List FaqRec)
deriving DecidableEq

/-- Merge rule of `_merge_data` for the partner-name keys: the LLM value is
taken only when the direct value is empty and the LLM value non-empty. -/
def mergeName (direct : String) (llm : Option String) : String :=
  match llm with
  | some v => if direct == "" && v != "" then v else direct
  | none => direct

/-- Merge rule of `_merge_data` for the list keys: a non-empty LLM list
replaces the direct list wholesale. -/
def mergeList {α : Type} (direct : List α) (llm : Option (List α)) : List α :=
  match llm with
  | some l => if l.isEmpty then direct else l
  | none => direct

/-- Merge rule of `_merge_data` for the remaining scalar keys: the LLM value
is taken when the direct value is falsy (`none` or the empty string). -/
def mergeOpt (direct llm : Option String) : Option String :=
  match llm with
  | some v =>
    match direct with
    | some d => if d == "" then some v else some d
    | none => some v
  | none => direct

/-- `WeddingDataMapper._merge_data` (the LLM response carries no
registry/rsvp keys, so those fields pass through from the direct pass). -/
def merge_data (direct : WeddingRecord) (llm : LlmOut) : WeddingRecord :=
  { partner1_name := mergeName direct.partner1_name llm.partner1_name
    partner2_name := mergeName direct.partner2_name llm.partner2_name
    wedding_date := mergeOpt direct.wedding_date llm.wedding_date
    wedding_time := mergeOpt direct.wedding_time llm.wedding_time
    dress_code := mergeOpt direct.dress_code llm.dress_code
    ceremony_venue_name := mergeOpt direct.ceremony_venue_name llm.ceremony_venue_name
    ceremony_venue_address := mergeOpt direct.ceremony_venue_address llm.ceremony_venue_address
    reception_venue_name := mergeOpt direct.reception_venue_name llm.reception_venue_name
    reception_venue_address := mergeOpt direct.reception_venue_address llm.reception_venue_address
    reception_time := mergeOpt direct.reception_time llm.reception_time
    registry_urls := direct.registry_urls
    rsvp_url := direct.rsvp_url
    additional_notes := mergeOpt direct.additional_notes llm.additional_notes
    events := mergeList direct.events llm.events
    accommodations := mergeList direct.accommodations llm.accommodations
    faqs := mergeList direct.faqs llm.faqs }

/-! ## Background scrape jobs (`models/scrape_job.py`, `run_scrape_job`) -/

/-- `ScrapeJobStatus` from `models/scrape_job.py`. -/
inductive ScrapeJobStatus
  | pending
  | processing
  | completed
  | failed
deriving DecidableEq

/-- The event-field transform applied for the preview (`Claude format` to
frontend format) in `run_scrape_job`. -/
structure PreviewEvent where
  name : String
  date : Option String
  time : Option String
  description : Option String
  venue_name : Option String
  venue_address : Option String
  dress_code : Option String
deriving DecidableEq

/-- The accommodation-field transform applied for the preview. -/
structure PreviewAcc where
  name : String
  address : Option String
  phone : Option String
  booking_url : Option String
  room_block_name : Option String
  room_block_code : Option String
deriving DecidableEq

/-- One transformed event entry. -/
def toPreviewEvent (e : EventRec) : PreviewEvent :=
  { name := e.event_name.getD "", date := e.event_date, time := e.event_time,
    description := e.description, venue_name := e.venue_name,
    venue_address := e.venue_address, dress_code := e.dress_code }

/-- One transformed accommodation entry. -/
def toPreviewAcc (a : AccommodationRec) : PreviewAcc :=
  { name := a.hotel_name.getD "", address := a.address, phone := a.phone,
    booking_url := a.booking_url, room_block_name := a.room_block_name,
    room_block_code := a.room_block_code }

/-- The preview dictionary built by `run_scrape_job` from the structured
record. -/
structure PreviewData where
  partner1_name : String
  partner2_name : String
  wedding_date : Option String
  ceremony_venue : Option String
  ceremony_venue_address : Option String
  reception_venue : Option String
  reception_venue_address : Option String
  dress_code : Option String
  events_count : Nat
  accommodations_count : Nat
  faqs_count : Nat
  has_registry : Bool
  events : List PreviewEvent
  accommodations : List PreviewAcc
  faqs : List FaqRec
deriving DecidableEq

/-- The preview construction of `run_scrape_job`. -/
def buildPreview (d : WeddingRecord) : PreviewData :=
  { partner1_name := d.partner1_name
    partner2_name := d.partner2_name
    wedding_date := d.wedding_date
    ceremony_venue := d.ceremony_venue_name
    ceremony_venue_address := d.ceremony_venue_address
    reception_venue := d.reception_venue_name
    reception_venue_address := d.reception_venue_address
    dress_code := d.dress_code
    events_count := (d.events.map toPreviewEvent).length
    accommodations_count := (d.accommodations.map toPreviewAcc).length
    faqs_count := d.faqs.length
    has_registry := !(d.registry_urls.getD []).isEmpty
    events := d.events.map toPreviewEvent
    accommodations := d.accommodations.map toPreviewAcc
    faqs := d.faqs }

/-- The mutable `ScrapeJob` columns the lifecycle claims concern (the
timestamp columns are not modelled). -/
structure JobState where
  status : ScrapeJobStatus
  progress : Nat
  message : Option String
  platform : Option String
  scraped_data : Option WeddingRecord
  preview_data : Option PreviewData
  error : Option String
deriving DecidableEq

/-- How one run of the pipeline can end, from `run_scrape_job`'s view: an
`error` entry in the scrape result, an exception during scraping, an
exception during mapping/preview, or success with a platform tag and a
structured record. -/
inductive ScrapeOutcome
  | errorResult (msg : String)
  | scrapeExn (msg : String)
  | mapExn (msg : String)
  | success (platform : String) (data : WeddingRecord)

/-- The job row created by `start_scrape_job` (`PENDING`, progress 0). -/
def initialJob : JobState :=
  { status := .pending, progress := 0, message := some "Starting...",
    platform := none, scraped_data := none, preview_data := none, error := none }

/-- The sequence of job states committed by `start_scrape_job` followed by
`run_scrape_job`, one entry per `db.commit()`, for each possible outcome. -/
def jobTrace (o : ScrapeOutcome) : List JobState :=
  let j1 : JobState :=
    { initialJob with
      status := .processing
      progress := 10
      message := some "Connecting to website..." }
  let j2 : JobState := { j1 with progress := 25, message := some "Loading main page..." }
  let j3 : JobState := { j2 with progress := 70, message := some "Extracting wedding details..." }
  match o with
  | .errorResult msg => [initialJob, j1, j2, { j2 with status := .failed, error := some msg }]
  | .scrapeExn msg => [initialJob, j1, j2, { j2 with status := .failed, error := some msg }]
  | .mapExn msg => [initialJob, j1, j2, j3, { j3 with status := .failed, error := some msg }]
  | .success platform d =>
    [initialJob, j1, j2, j3,
      { j3 with
        status := .completed
        progress := 100
        message := some "Complete!"
        platform := some platform
        scraped_data := some d
        preview_data := some (buildPreview d) }]

/-! ## Theorems -/

/-- C1: For every URL whose scheme is neither http nor https,
`validate_url_for_ssrf` returns not-ok; for every URL whose hostname is,
or resolves via DNS to, a loopback, private, or link-local address, it
returns not-ok; and DNS resolution failure is also a rejection. -/
theorem C1_ssrf_validator_rejects :
    (∀ dns pu, pu.scheme ≠ "http" → pu.scheme ≠ "https" →
      (validate_url_for_ssrf dns pu).1 = false)
  ∧ (∀ dns pu h ip, pu.hostname = some h → parseIPv4 h = some ip →
      (ipIsLoopback ip || ipIsPrivate ip || ipIsLinkLocal ip) = true →
      (validate_url_for_ssrf dns pu).1 = false)
  ∧ (∀ dns pu h ips s ip, pu.hostname = some h → parseIPv4 h = none →
      dns h = some ips → s ∈ ips → parseIPv4 s = some ip →
      (ipIsLoopback ip || ipIsPrivate ip || ipIsLinkLocal ip) = true →
      (validate_url_for_ssrf dns pu).1 = false)
  ∧ (∀ dns pu h, pu.hostname = some h → parseIPv4 h = none → dns h = none →
      (validate_url_for_ssrf dns pu).1 = false) := by
  refine ⟨?_, ?_, ?_, ?_⟩
  · intro dns pu h1 h2
    unfold validate_url_for_ssrf
    have hc : (pu.scheme != "http" && pu.scheme != "https") = true := by
      simp [bne_iff_ne, h1, h2]
    simp [hc]
  · intro dns pu h ip hh hp hpriv
    have hpr : is_private_ip h = true := by
      unfold is_private_ip
      rw [hp]
      simp only [Bool.or_eq_true] at hpriv ⊢
      tauto
    unfold validate_url_for_ssrf
    rw [hh]
    split
    · rfl
    · split
      · rfl
      next hostname heq =>
        injection heq with he
        subst he
        split
        · rfl
        · simp only [hp, hpr]
  · intro dns pu h ips s ip hh hp hdns hmem hps hpriv
    have hpr : is_private_ip s = true := by
      unfold is_private_ip
      rw [hps]
      simp only [Bool.or_eq_true] at hpriv ⊢
      tauto
    have hany : ips.any is_private_ip = true := by
      simp only [List.any_eq_true]
      exact ⟨s, hmem, hpr⟩
    unfold validate_url_for_ssrf
    rw [hh]
    split
    · rfl
    · split
      · rfl
      next hostname heq =>
        injection heq with he
        subst he
        split
        · rfl
        · simp [hp, hdns, hany]
  · intro dns pu h hh hp hdns
    unfold validate_url_for_ssrf
    rw [hh]
    split
    · rfl
    · split
      · rfl
      next hostname heq =>
        injection heq with he
        subst he
        split
        · rfl
        · simp only [hp, hdns]

/-- C1 witness: concrete rejections for a non-HTTP scheme, a private IP
literal, a hostname resolving to a private address, and a DNS failure. -/
theorem C1_ssrf_validator_rejects_witness :
    ((validate_url_for_ssrf (fun _ => none) (urlParse "ftp://example.com/")).1 = false)
  ∧ ((validate_url_for_ssrf (fun _ => none) (urlParse "http://10.0.0.5/")).1 = false)
  ∧ ((validate_url_for_ssrf (fun _ => some ["192.168.1.10"]) (urlParse "http://internal.example/")).1 = false)
  ∧ ((validate_url_for_ssrf (fun _ => none) (urlParse "http://nxdomain.example/")).1 = false) := by
  refine ⟨?_, ?_, ?_, ?_⟩
  · exact C1_ssrf_validator_rejects.1 _ _ (by decide) (by decide)
  · exact C1_ssrf_validator_rejects.2.1 _ _ "10.0.0.5" (ipQuad 10 0 0 5) (by decide) (by decide) (by decide)
  · exact C1_ssrf_validator_rejects.2.2.1 _ _ "internal.example" ["192.168.1.10"] "192.168.1.10" (ipQuad 192 168 1 10) (by decide) (by decide) rfl (by decide) (by decide) (by decide)
  · exact C1_ssrf_validator_rejects.2.2.2 _ _ "nxdomain.example" (by decide) (by decide) rfl

/-- C2 counterexample: for `http://169.254.169.254/wedding` the validator
does return false, but the reason is the internal-resources denylist message,
which does not mention a private IP, contradicting the claimed reason text. -/
theorem C2_metadata_reason_counterexample :
    (validate_url_for_ssrf (fun _ => none) (urlParse "http://169.254.169.254/wedding")
      = (false, "Access to internal resources is not allowed"))
  ∧ occursIn "private IP"
      (validate_url_for_ssrf (fun _ => none) (urlParse "http://169.254.169.254/wedding")).2 = false := by
  exact ⟨rfl, rfl⟩

/-- C2 amended: for `http://169.254.169.254/wedding`, under every DNS
environment, validation returns false with reason "Access to internal
resources is not allowed" (the hostname denylist fires before any IP check),
and the scrape endpoint creates no scraper, so no fetch is attempted. -/
theorem C2_metadata_rejected_no_fetch :
    ∀ dns : DnsEnv,
      validate_url_for_ssrf dns (urlParse "http://169.254.169.254/wedding")
        = (false, "Access to internal resources is not allowed")
      ∧ scrape_endpoint_attempts_fetch dns "http://169.254.169.254/wedding" = false := by
  intro dns
  exact ⟨rfl, rfl⟩

/-- C3: a fetched response is classified as blocked exactly when it is shorter
than 500 characters or contains a known challenge-page marker; and when a
lightweight (httpx) fetch yields a blocked response, `_fetch_page` attempts the
browser tier next and never returns a blocked body as the final result. -/
theorem C3_blocked_detection_and_fallback :
    (∀ html : String, is_blocked_response html = true ↔
      (pyLen html < 500 ∨ ∃ ind ∈ blockedIndicators, occursIn ind html = true))
  ∧ (∀ env s url html, s.use_browser_for_session = false →
      should_use_browser url = false →
      fetch_with_httpx env url = some html →
      is_blocked_response html = true →
      Tier.browser ∈ (fetch_page env s url).2.2
      ∧ ∀ r, (fetch_page env s url).1 = some r → is_blocked_response r = false) := by
  constructor
  · intro html
    unfold is_blocked_response
    split
    next hlt => simp [hlt]
    next hge => simp [List.any_eq_true, hge]
  · intro env s url html hs hb hf hblk
    unfold fetch_page
    simp only [hs, hb, hf, hblk, Bool.or_self, Bool.false_eq_true, if_false, Bool.not_true]
    rcases henv : env.browser url with _ | html2
    · simp
    · by_cases h2 : is_blocked_response html2 = true
      · simp [h2]
      · simp only [Bool.not_eq_true] at h2
        simp [h2]

/-- C3 witness: a short "Checking your browser..." lightweight body leads to a
browser-tier attempt. -/
theorem C3_blocked_detection_and_fallback_witness :
    Tier.browser ∈
      (fetch_page ⟨fun _ => .response 200 "Checking your browser...", fun _ => none⟩
        ⟨false⟩ "http://example.com/").2.2 :=
  (C3_blocked_detection_and_fallback.2
    ⟨fun _ => .response 200 "Checking your browser...", fun _ => none⟩
    ⟨false⟩ "http://example.com/" "Checking your browser..."
    rfl (by decide) rfl (by decide)).1

/-- C9 amended: while the session browser flag is set, every fetch uses only
the browser tier (and the flag stays set); the flag becomes set when a blocked
lightweight fetch is followed by a successful non-blocked browser fetch.  (As
stated the claim fails: a blocked lightweight fetch whose browser fallback
also fails does not latch the session, see the counterexample.) -/
theorem C9_browser_session_latch :
    (∀ env s url, s.use_browser_for_session = true →
      (fetch_page env s url).2.1.use_browser_for_session = true
      ∧ (fetch_page env s url).2.2 = [Tier.browser])
  ∧ (∀ env s url html html2, s.use_browser_for_session = false →
      should_use_browser url = false →
      fetch_with_httpx env url = some html → is_blocked_response html = true →
      env.browser url = some html2 → is_blocked_response html2 = false →
      (fetch_page env s url).2.1.use_browser_for_session = true) := by
  constructor
  · intro env s url hs
    unfold fetch_page
    simp only [hs, Bool.true_or, if_true]
    rcases henv : env.browser url with _ | html
    · simp [hs]
    · by_cases h2 : is_blocked_response html = true
      · simp [h2, hs]
      · simp only [Bool.not_eq_true] at h2
        simp [h2]
  · intro env s url html html2 hs hb hf hblk henv h2
    unfold fetch_page
    simp only [hs, hb, hf, hblk, henv, h2, Bool.or_self, Bool.false_eq_true, if_false,
      Bool.not_true, Bool.not_false, if_true]

/-- C9 witness: a latched session fetches via the browser tier only. -/
theorem C9_browser_session_latch_witness :
    (fetch_page ⟨fun _ => .transportError, fun _ => none⟩ ⟨true⟩ "http://example.com/").2.2
      = [Tier.browser] :=
  (C9_browser_session_latch.1 ⟨fun _ => .transportError, fun _ => none⟩ ⟨true⟩
    "http://example.com/" rfl).2

/-- C9 counterexample: the lightweight fetch is detected as blocked, but the
browser fallback fails, so the session is not switched: the very next fetch in
the same session retries the lightweight client, contradicting the claim that
a blocked lightweight fetch permanently switches the session to the browser
tier. -/
theorem C9_browser_session_latch_counterexample :
    (fetch_with_httpx ⟨fun _ => .response 200 "Checking your browser...", fun _ => none⟩
        "http://example.com/" = some "Checking your browser...")
  ∧ is_blocked_response "Checking your browser..." = true
  ∧ (fetch_page ⟨fun _ => .response 200 "Checking your browser...", fun _ => none⟩
        ⟨false⟩ "http://example.com/").2.1.use_browser_for_session = false
  ∧ Tier.lightweight ∈
      (fetch_page ⟨fun _ => .response 200 "Checking your browser...", fun _ => none⟩
        (fetch_page ⟨fun _ => .response 200 "Checking your browser...", fun _ => none⟩
          ⟨false⟩ "http://example.com/").2.1 "http://example.com/").2.2 := by
  refine ⟨rfl, by decide, ?_, ?_⟩
  · rfl
  · decide

/-- C10: `_fetch_with_httpx` returns the body of a 403 response when that body
is non-empty; every other non-2xx status and every transport error yields
`none` (the embedding is a total function, so no exception escapes). -/
theorem C10_httpx_status_handling :
    (∀ env url status text, env.net url = .response status text →
      ¬(200 ≤ status ∧ status ≤ 299) →
      fetch_with_httpx env url = if status = 403 ∧ text ≠ "" then some text else none)
  ∧ (∀ env url, env.net url = .transportError → fetch_with_httpx env url = none) := by
  constructor
  · intro env url status text hnet hrange
    unfold fetch_with_httpx
    rw [hnet]
    have h1 : (200 ≤ status && status ≤ 299) = false := by
      rw [Bool.eq_false_iff]
      intro hcontr
      simp only [Bool.and_eq_true, decide_eq_true_eq] at hcontr
      exact hrange hcontr
    simp only [h1, Bool.false_eq_true, if_false]
    by_cases hc : status = 403 ∧ text ≠ ""
    · simp [hc.1, hc.2]
    · rw [if_neg hc]
      rcases Decidable.not_and_iff_or_not.mp hc with h | h
      · simp [h]
      · simp only [ne_eq, Decidable.not_not] at h
        simp [h]
  · intro env url hnet
    unfold fetch_with_httpx
    rw [hnet]

/-- C10 witness: a 403 with a non-empty body is passed through as HTML. -/
theorem C10_httpx_status_handling_witness :
    fetch_with_httpx ⟨fun _ => .response 403 "Access Denied body", fun _ => none⟩
      "http://example.com/" = some "Access Denied body" := by
  rw [C10_httpx_status_handling.1 ⟨fun _ => .response 403 "Access Denied body", fun _ => none⟩
    "http://example.com/" 403 "Access Denied body" rfl (by omega)]
  simp

/-- Every link emitted by the scan pass has a slash-stripped path different
from the base path and from the empty path. -/
theorem navScan_path_ne (base : ParsedUrl) (baseUrl basePath : String) :
    ∀ anchors seen l, l ∈ navScan base baseUrl basePath anchors seen →
      rstripSlash (urlParse l.url).path ≠ basePath
      ∧ rstripSlash (urlParse l.url).path ≠ "" := by
  intro anchors
  induction anchors with
  | nil => intro seen l hl; simp [navScan] at hl
  | cons a rest ih =>
    intro seen l hl
    unfold navScan at hl
    split_ifs at hl with h1 h2 h3 h4 h5 h6
    · exact ih seen l hl
    · exact ih seen l hl
    · exact ih seen l hl
    · exact ih seen l hl
    · exact ih seen l hl
    · rcases List.mem_cons.mp hl with rfl | hl'
      · simp only [Bool.or_eq_true, beq_iff_eq] at h4
        push_neg at h4
        exact ⟨h4.1, h4.2⟩
      · exact ih _ l hl'
    · exact ih seen l hl

/-- The dedup pass only keeps elements of its input. -/
theorem navDedup_subset : ∀ ls seen l, l ∈ navDedup ls seen → l ∈ ls := by
  intro ls
  induction ls with
  | nil => intro seen l hl; simp [navDedup] at hl
  | cons x rest ih =>
    intro seen l hl
    unfold navDedup at hl
    split_ifs at hl with h1
    · exact List.mem_cons_of_mem _ (ih _ l hl)
    · rcases List.mem_cons.mp hl with rfl | hl'
      · exact List.mem_cons_self _ _
      · exact List.mem_cons_of_mem _ (ih _ l hl')

/-- The dedup pass produces URL-distinct output avoiding the seen set. -/
theorem navDedup_nodup : ∀ ls seen,
    ((navDedup ls seen).map NavLink.url).Nodup
    ∧ ∀ l ∈ navDedup ls seen, l.url ∉ seen := by
  intro ls
  induction ls with
  | nil => intro seen; simp [navDedup]
  | cons x rest ih =>
    intro seen
    unfold navDedup
    split_ifs with h1
    · exact ⟨(ih seen).1, fun l hl => (ih seen).2 l hl⟩
    · constructor
      · simp only [List.map_cons, List.nodup_cons]
        constructor
        · intro hx
          rcases List.mem_map.mp hx with ⟨l, hl, hurl⟩
          have hns := (ih (x.url :: seen)).2 l hl
          simp [hurl] at hns
        · exact (ih (x.url :: seen)).1
      · intro l hl
        rcases List.mem_cons.mp hl with rfl | hl'
        · exact h1
        · have hns := (ih (x.url :: seen)).2 l hl'
          intro hmem
          exact hns (List.mem_cons_of_mem _ hmem)

/-- C8: for every root page and base URL, nav-link discovery never returns
the root URL itself, never returns two entries with the same URL, and
returns at most 10 links. -/
theorem C8_nav_discovery_invariants :
    ∀ anchors baseUrl,
      (find_nav_subpages anchors baseUrl).length ≤ 10
      ∧ ((find_nav_subpages anchors baseUrl).map NavLink.url).Nodup
      ∧ ∀ l ∈ find_nav_subpages anchors baseUrl, l.url ≠ baseUrl := by
  intro anchors baseUrl
  refine ⟨?_, ?_, ?_⟩
  · simp only [find_nav_subpages]
    exact List.length_take_le _ _
  · simp only [find_nav_subpages]
    rw [List.map_take]
    exact (List.take_sublist _ _).nodup
      ((navDedup_nodup (navScan (urlParse baseUrl) baseUrl
        (rstripSlash (urlParse baseUrl).path) anchors []) []).1)
  · intro l hl
    simp only [find_nav_subpages] at hl
    have hmem : l ∈ navDedup (navScan (urlParse baseUrl) baseUrl
        (rstripSlash (urlParse baseUrl).path) anchors []) [] :=
      List.take_subset _ _ hl
    have hscan := navDedup_subset _ _ _ hmem
    have hne := (navScan_path_ne (urlParse baseUrl) baseUrl
      (rstripSlash (urlParse baseUrl).path) anchors [] l hscan).1
    intro heq
    exact hne (by rw [heq])

/-- C8 witness: on a concrete page the discovered travel link differs from
the root URL. -/
theorem C8_nav_discovery_invariants_witness :
    ({ url := "http://x.com/wed/travel", name := "travel", display_name := "Travel" } : NavLink).url
      ≠ "http://x.com/wed" :=
  (C8_nav_discovery_invariants
    [{ href := "/wed/travel", text := "Travel" }, { href := "/wed", text := "Home" }]
    "http://x.com/wed").2.2 _ (by decide)

/-- Truncation really caps the character count. -/
theorem pyLen_pyTake_le (s : String) (n : Nat) : pyLen (pyTake s n) ≤ n := by
  simp only [pyLen, pyTake, List.length_take]
  omega

/-- C5: every page extracted by `_extract_main_content` is capped at 8000
characters on the travel branch and 5000 characters otherwise, and the
assembled `full_text` is capped at 30000 characters for The Knot (and
WeddingWire) and 20000 for the Zola/Joy/generic assemblers, regardless of how
many sub-pages were gathered. -/
theorem C5_length_caps :
    (∀ doc name, pyLen (extract_main_content doc name)
      ≤ if isTravelPageName name = true then 8000 else 5000)
  ∧ (∀ mainRaw subpages avail,
      pyLen (theKnotFullText mainRaw subpages avail) ≤ 30000)
  ∧ (∀ mainRaw subpages avail,
      pyLen (genericStyleFullText mainRaw subpages avail) ≤ 20000) := by
  refine ⟨?_, ?_, ?_⟩
  · intro doc name
    by_cases ht : isTravelPageName name = true
    · rw [if_pos ht]
      unfold extract_main_content
      split_ifs with h1 h2
      · exact pyLen_pyTake_le _ _
      · exact le_trans (pyLen_pyTake_le _ _) (by omega)
      · cases hmt : doc.mainText with
        | none => simp only [hmt]; exact le_trans (pyLen_pyTake_le _ _) (by omega)
        | some t => simp only [hmt]; exact le_trans (pyLen_pyTake_le _ _) (by omega)
    · rw [if_neg ht]
      unfold extract_main_content
      split_ifs with h1 h2
      · exfalso
        simp only [Bool.and_eq_true] at h1
        exact ht h1.1
      · exact pyLen_pyTake_le _ _
      · cases hmt : doc.mainText with
        | none => simp only [hmt]; exact pyLen_pyTake_le _ _
        | some t => simp only [hmt]; exact pyLen_pyTake_le _ _
  · intro mainRaw subpages avail
    exact pyLen_pyTake_le _ _
  · intro mainRaw subpages avail
    exact pyLen_pyTake_le _ _

/-- C6: in `_merge_data`, whenever the direct (pass-1) extraction yields a
non-empty `partner1_name`, the merged record keeps the pass-1 value and never
the pass-2 (LLM) value; the pass-2 value is used only when the pass-1 value
is empty (and the pass-2 value itself non-empty). -/
theorem C6_merge_prefers_direct_partner1 :
    (∀ raw llm, (extract_direct_fields raw).partner1_name ≠ "" →
      (merge_data (extract_direct_fields raw) llm).partner1_name
        = (extract_direct_fields raw).partner1_name)
  ∧ (∀ raw llm v, (extract_direct_fields raw).partner1_name = "" →
      llm.partner1_name = some v → v ≠ "" →
      (merge_data (extract_direct_fields raw) llm).partner1_name = v) := by
  constructor
  · intro raw llm hne
    show mergeName (extract_direct_fields raw).partner1_name llm.partner1_name = _
    unfold mergeName
    cases llm.partner1_name with
    | none => rfl
    | some v =>
      have : ((extract_direct_fields raw).partner1_name == "") = false := by
        simp [hne]
      simp [this]
  · intro raw llm v hemp hllm hv
    show mergeName (extract_direct_fields raw).partner1_name llm.partner1_name = v
    rw [hllm]
    unfold mergeName
    simp [hemp, hv]

/-- C6 witness: a concrete bundle with couple names keeps the direct
partner-1 name over the LLM suggestion. -/
theorem C6_merge_prefers_direct_partner1_witness :
    (merge_data (extract_direct_fields
        { couple_names := some "Jane Smith & John Doe's Wedding",
          main_heading := none, page_title := none, wedding_date_text := none,
          possible_date := none, rsvp_url := none, registry_links := [] })
      { partner1_name := some "Janet", partner2_name := none, wedding_date := none,
        wedding_time := none, dress_code := none, ceremony_venue_name := none,
        ceremony_venue_address := none, reception_venue_name := none,
        reception_venue_address := none, reception_time := none,
        additional_notes := none, events := none, accommodations := none,
        faqs := none }).partner1_name
    = (extract_direct_fields
        { couple_names := some "Jane Smith & John Doe's Wedding",
          main_heading := none, page_title := none, wedding_date_text := none,
          possible_date := none, rsvp_url := none, registry_links := [] }).partner1_name :=
  C6_merge_prefers_direct_partner1.1 _ _ (by decide)

/-- C7 counterexample: `_parse_date` maps "13/45/2025" to the string
"2025-13-45" (the `MM/DD/YYYY` branch formats without range validation), not
to `None` as claimed. -/
theorem C7_invalid_date_counterexample :
    parse_date "13/45/2025" = some "2025-13-45" ∧ parse_date "13/45/2025" ≠ none := by
  constructor
  · rfl
  · decide

/-- C7 amended: the date parser maps "June 15, 2025" to "2025-06-15", and
maps "13/45/2025" to "2025-13-45" without raising an exception (out-of-range
components are not validated; `None` results only when no pattern matches or
the month name is unknown). -/
theorem C7_date_parser_values :
    parse_date "June 15, 2025" = some "2025-06-15"
  ∧ parse_date "13/45/2025" = some "2025-13-45" := ⟨rfl, rfl⟩

/-- C4: every background scrape job starts in PENDING, moves to PROCESSING,
and terminates in COMPLETED or FAILED; along every execution the committed
progress values are monotonically non-decreasing, a COMPLETED state has
progress 100, `scraped_data` is populated only in the COMPLETED state, and
FAILED states carry an error. -/
theorem C4_job_lifecycle :
    ∀ o : ScrapeOutcome,
      ((jobTrace o).head?.map JobState.status) = some ScrapeJobStatus.pending
      ∧ (((jobTrace o).get? 1).map JobState.status) = some ScrapeJobStatus.processing
      ∧ (((jobTrace o).getLast?.map JobState.status) = some ScrapeJobStatus.completed
         ∨ ((jobTrace o).getLast?.map JobState.status) = some ScrapeJobStatus.failed)
      ∧ List.Chain' (fun a b => a.progress ≤ b.progress) (jobTrace o)
      ∧ (∀ j ∈ jobTrace o, j.status = ScrapeJobStatus.completed → j.progress = 100)
      ∧ (∀ j ∈ jobTrace o, j.scraped_data ≠ none → j.status = ScrapeJobStatus.completed)
      ∧ (∀ j ∈ jobTrace o, j.status = ScrapeJobStatus.failed → j.error ≠ none) := by
  intro o
  cases o with
  | errorResult msg =>
    refine ⟨rfl, rfl, Or.inr rfl, ?_, ?_, ?_, ?_⟩
    · simp [jobTrace, initialJob]
    · intro j hj
      simp only [jobTrace, initialJob, List.mem_cons, List.not_mem_nil, or_false] at hj
      rcases hj with rfl | rfl | rfl | rfl <;> simp
    · intro j hj
      simp only [jobTrace, initialJob, List.mem_cons, List.not_mem_nil, or_false] at hj
      rcases hj with rfl | rfl | rfl | rfl <;> simp
    · intro j hj
      simp only [jobTrace, initialJob, List.mem_cons, List.not_mem_nil, or_false] at hj
      rcases hj with rfl | rfl | rfl | rfl <;> simp
  | scrapeExn msg =>
    refine ⟨rfl, rfl, Or.inr rfl, ?_, ?_, ?_, ?_⟩
    · simp [jobTrace, initialJob]
    · intro j hj
      simp only [jobTrace, initialJob, List.mem_cons, List.not_mem_nil, or_false] at hj
      rcases hj with rfl | rfl | rfl | rfl <;> simp
    · intro j hj
      simp only [jobTrace, initialJob, List.mem_cons, List.not_mem_nil, or_false] at hj
      rcases hj with rfl | rfl | rfl | rfl <;> simp
    · intro j hj
      simp only [jobTrace, initialJob, List.mem_cons, List.not_mem_nil, or_false] at hj
      rcases hj with rfl | rfl | rfl | rfl <;> simp
  | mapExn msg =>
    refine ⟨rfl, rfl, Or.inr rfl, ?_, ?_, ?_, ?_⟩
    · simp [jobTrace, initialJob]
    · intro j hj
      simp only [jobTrace, initialJob, List.mem_cons, List.not_mem_nil, or_false] at hj
      rcases hj with rfl | rfl | rfl | rfl | rfl <;> simp
    · intro j hj
      simp only [jobTrace, initialJob, List.mem_cons, List.not_mem_nil, or_false] at hj
      rcases hj with rfl | rfl | rfl | rfl | rfl <;> simp
    · intro j hj
      simp only [jobTrace, initialJob, List.mem_cons, List.not_mem_nil, or_false] at hj
      rcases hj with rfl | rfl | rfl | rfl | rfl <;> simp
  | success platform d =>
    refine ⟨rfl, rfl, Or.inl rfl, ?_, ?_, ?_, ?_⟩
    · simp [jobTrace, initialJob]
    · intro j hj
      simp only [jobTrace, initialJob, List.mem_cons, List.not_mem_nil, or_false] at hj
      rcases hj with rfl | rfl | rfl | rfl | rfl <;> simp
    · intro j hj
      simp only [jobTrace, initialJob, List.mem_cons, List.not_mem_nil, or_false] at hj
      rcases hj with rfl | rfl | rfl | rfl | rfl <;> simp
    · intro j hj
      simp only [jobTrace, initialJob, List.mem_cons, List.not_mem_nil, or_false] at hj
      rcases hj with rfl | rfl | rfl | rfl | rfl <;> simp

/-- C4 witness: the terminal state of a failed run carries an error. -/
theorem C4_job_lifecycle_witness :
    ({ status := .failed, progress := 25, message := some "Loading main page...",
       platform := none, scraped_data := none, preview_data := none,
       error := some "boom" } : JobState).error ≠ none :=
  (C4_job_lifecycle (.errorResult "boom")).2.2.2.2.2.2 _ (by decide) rfl
